import Mathlib

/-!
# librbd::cache::pwl::ImageDispatch

A shallow embedding of `src/librbd/cache/pwl/ImageDispatch.cc`: the image
dispatch layer that hands image I/O to the persistent write-log cache.

Every entry point of the C++ class is a state transformer on a `World`
(the dispatcher's `m_image_cache` pointer, the `AioCompletion` the caller
passed in, the `*dispatch_result` out-parameter, the shutdown requests in
flight) which also appends to an effect trace every call it makes on the
completion and on the cache.  A fatal stop (`ceph_abort`, a failed
`ceph_assert`, a call through a null `m_image_cache`) ends the run with a
`Fault`; the world reached at that point is kept.
-/

namespace ImageDispatch

/-! ## Data model -/

/-- An image extent `(offset, length)`: `io::Extents` is a sequence of these.
Both components are `uint64_t` values, that is, numbers below `2 ^ 64`. -/
abbrev Extent := Nat × Nat

abbrev Extents := List Extent

/-- The bytes of a `ceph::bufferlist`. -/
abbrev Bufferlist := List Nat

/-- Modelled from the spec: `io::DispatchResult` is declared in
`librbd/io/Types.h`, which is not part of the sources at hand.  The
dispatcher only ever produces `DISPATCH_RESULT_COMPLETE`; the retry and
not-handled outcomes belong to the layers above. -/
inductive DispatchResult
  | DISPATCH_RESULT_RESTART
  | DISPATCH_RESULT_CONTINUE
  | DISPATCH_RESULT_COMPLETE
  deriving DecidableEq, Repr

/-- Modelled from the spec: `io::FlushSource` (`librbd/io/Types.h`), the tag
that tells a caller-initiated flush from an internal one. -/
inductive FlushSource
  | FLUSH_SOURCE_USER
  | FLUSH_SOURCE_INTERNAL
  deriving DecidableEq, Repr

/-- Modelled from the spec: `io::ReadResult` (`librbd/io/ReadResult.h`), the
destination the caller wants the data in, with the clip length the
dispatcher sets on it. -/
structure ReadResult where
  target : Nat
  clip_length : Option Nat
  deriving DecidableEq, Repr

/-- Modelled from the spec: `io::AioCompletion` (`librbd/io/AioCompletion.h`),
the completion token: whether its `async_op` has been started, the pending
request count and the read result installed on it. -/
structure AioCompletion where
  started : Bool
  pending_count : Nat
  read_result : Option ReadResult
  deriving DecidableEq, Repr

/-- The cache behind `m_image_cache`.  `aio_writesame` is handed its pattern
as `std::move(bl)`; `takes_bl` says whether the cache moves the contents out
of the bufferlist it is handed (leaving the caller's variable empty) or only
reads it. -/
structure ImageCache where
  takes_bl : Bool
  deriving DecidableEq, Repr

/-- A `Context*`: either a caller-supplied finalizer, or the `LambdaContext`
that `shut_down` builds around one. -/
inductive Context
  | user (id : Nat)
  | shut_down_lambda (on_finish : Context)
  deriving DecidableEq, Repr

/-- A `cache::pwl::ShutdownRequest`: the cache pointer and the `Context*` it
was created with. -/
structure ShutdownRequest where
  image_cache : Option ImageCache
  on_finish : Context
  deriving DecidableEq, Repr

/-- One entry of the effect trace. -/
inductive Event
  | start_op
  | set_request_count (count : Nat)
  | set_read_result (read_result : ReadResult)
  | set_clip_length (length : Nat)
  | aio_read (image_extents : Extents) (op_flags : Int)
  | aio_write (image_extents : Extents) (bl : Bufferlist) (op_flags : Int)
  | aio_discard (offset length : Nat) (discard_granularity_bytes : Nat)
  | aio_writesame (offset length : Nat) (bl : Bufferlist) (op_flags : Int)
  | aio_compare_and_write (image_extents : Extents) (cmp_bl bl : Bufferlist)
      (mismatch_offset : Nat) (op_flags : Int)
  | aio_flush (flush_source : FlushSource)
  | shutdown_request_send (req : ShutdownRequest)
  | image_cache_cleared
  | context_complete (id : Nat) (r : Int)
  deriving DecidableEq, Repr

/-- An event that is a call into the cache's asynchronous I/O interface. -/
def Event.is_backend_call : Event → Bool
  | .aio_read .. => true
  | .aio_write .. => true
  | .aio_discard .. => true
  | .aio_writesame .. => true
  | .aio_compare_and_write .. => true
  | .aio_flush .. => true
  | _ => false

def Event.is_set_request_count : Event → Bool
  | .set_request_count _ => true
  | _ => false

def Event.is_start_op : Event → Bool
  | .start_op => true
  | _ => false

/-- An event that installs a read result or a clip length on the token. -/
def Event.is_read_result_install : Event → Bool
  | .set_read_result _ => true
  | .set_clip_length _ => true
  | _ => false

/-- An event that runs a caller-supplied finalizer. -/
def Event.is_context_complete : Event → Bool
  | .context_complete .. => true
  | _ => false

/-- The `(offset, length)` a per-extent cache call was issued for. -/
def Event.extent : Event → Option Extent
  | .aio_discard offset length _ => some (offset, length)
  | .aio_writesame offset length _ _ => some (offset, length)
  | _ => none

/-- The pattern buffer an `aio_writesame` call was handed. -/
def Event.pattern : Event → Option Bufferlist
  | .aio_writesame _ _ bl _ => some bl
  | _ => none

/-- The cache calls of a trace, in order. -/
def backend_calls (trace : List Event) : List Event :=
  trace.filter Event.is_backend_call

structure World where
  m_image_cache : Option ImageCache
  aio_comp : AioCompletion
  dispatch_result : Option DispatchResult
  shutdown_requests : List ShutdownRequest
  trace : List Event
  deriving DecidableEq, Repr

inductive Fault
  | null_image_cache
  | assert_failed
  | aborted
  deriving DecidableEq, Repr

/-- A run of dispatcher code: the value returned or the fault that stopped it,
and the world reached. -/
def Dispatch (α : Type) : Type := World → Except Fault α × World

def Dispatch.pure {α : Type} (a : α) : Dispatch α := fun w => (.ok a, w)

def Dispatch.bind {α β : Type} (m : Dispatch α) (f : α → Dispatch β) : Dispatch β :=
  fun w =>
    match m w with
    | (.ok a, w1) => f a w1
    | (.error e, w1) => (.error e, w1)

instance : Monad Dispatch where
  pure := Dispatch.pure
  bind := Dispatch.bind

def emit (e : Event) : Dispatch Unit :=
  fun w => (.ok (), { w with trace := w.trace ++ [e] })

def ceph_abort {α : Type} : Dispatch α := fun w => (.error .aborted, w)

def ceph_assert (cond : Bool) : Dispatch Unit :=
  fun w => if cond then (.ok (), w) else (.error .assert_failed, w)

/-! ## Collaborators -/

/-- The value a `uint64_t` holds when it is given `n`. -/
def to_uint64 (n : Nat) : Nat := n % 2 ^ 64

/-- All offsets and lengths of the extents are `uint64_t` values. -/
def extents_in_range (image_extents : Extents) : Bool :=
  image_extents.all (fun extent => extent.1 < 2 ^ 64 && extent.2 < 2 ^ 64)

/-- Modelled from the spec: `io::util::extents_length` (`librbd/io/Utils.h`,
not part of the sources at hand), the total byte length spanned by the
extents.  The total is a `uint64_t` (`read` stores it in one): the sum of
the lengths modulo `2 ^ 64`. -/
def extents_length (image_extents : Extents) : Nat :=
  to_uint64 (image_extents.map Prod.snd).sum

/-- Modelled from the spec: `aio_comp->async_op.started()`. -/
def started : Dispatch Bool := fun w => (.ok w.aio_comp.started, w)

/-- Modelled from the spec: `AioCompletion::start_op`, which marks the
token's `async_op` as started. -/
def start_op : Dispatch Unit := fun w =>
  (.ok (), { w with aio_comp := { w.aio_comp with started := true },
                    trace := w.trace ++ [.start_op] })

/-- Modelled from the spec: `AioCompletion::set_request_count`, which sets the
token's pending count. -/
def set_request_count (count : Nat) : Dispatch Unit := fun w =>
  (.ok (), { w with aio_comp := { w.aio_comp with pending_count := count },
                    trace := w.trace ++ [.set_request_count count] })

/-- The assignment `aio_comp->read_result = std::move(read_result)`. -/
def set_read_result (read_result : ReadResult) : Dispatch Unit := fun w =>
  (.ok (), { w with aio_comp := { w.aio_comp with read_result := some read_result },
                    trace := w.trace ++ [.set_read_result read_result] })

/-- Modelled from the spec: `aio_comp->read_result.set_clip_length(length)`. -/
def set_clip_length (length : Nat) : Dispatch Unit := fun w =>
  (.ok (), { w with
    aio_comp := { w.aio_comp with
      read_result := w.aio_comp.read_result.map
        (fun rr => { rr with clip_length := some length }) },
    trace := w.trace ++ [.set_clip_length length] })

/-- The assignment `*dispatch_result = r`. -/
def set_dispatch_result (r : DispatchResult) : Dispatch Unit := fun w =>
  (.ok (), { w with dispatch_result := some r })

/-- The dereference in `m_image_cache->...`: fatal on a null pointer. -/
def image_cache : Dispatch ImageCache := fun w =>
  match w.m_image_cache with
  | some c => (.ok c, w)
  | none => (.error .null_image_cache, w)

def aio_read (image_extents : Extents) (op_flags : Int) : Dispatch Unit := do
  let _ ← image_cache
  emit (.aio_read image_extents op_flags)

def aio_write (image_extents : Extents) (bl : Bufferlist) (op_flags : Int) :
    Dispatch Unit := do
  let _ ← image_cache
  emit (.aio_write image_extents bl op_flags)

def aio_discard (offset length discard_granularity_bytes : Nat) : Dispatch Unit := do
  let _ ← image_cache
  emit (.aio_discard offset length discard_granularity_bytes)

/-- The call `m_image_cache->aio_writesame(offset, length, std::move(bl),
op_flags, req_comp)`.  The result is what the caller's `bl` holds afterwards:
nothing when the cache took the contents, else what it held before. -/
def aio_writesame (offset length : Nat) (bl : Bufferlist) (op_flags : Int) :
    Dispatch Bufferlist := do
  let c ← image_cache
  emit (.aio_writesame offset length bl op_flags)
  pure (if c.takes_bl then [] else bl)

def aio_compare_and_write (image_extents : Extents) (cmp_bl bl : Bufferlist)
    (mismatch_offset : Nat) (op_flags : Int) : Dispatch Unit := do
  let _ ← image_cache
  emit (.aio_compare_and_write image_extents cmp_bl bl mismatch_offset op_flags)

def aio_flush (flush_source : FlushSource) : Dispatch Unit := do
  let _ ← image_cache
  emit (.aio_flush flush_source)

/-- The value of the member `m_image_cache`. -/
def get_m_image_cache : Dispatch (Option ImageCache) := fun w => (.ok w.m_image_cache, w)

/-- Modelled from the spec: `ShutdownRequest<I>::create(*m_image_ctx,
m_image_cache, ctx)`. -/
def ShutdownRequest.create (image_cache : Option ImageCache) (on_finish : Context) :
    ShutdownRequest :=
  { image_cache := image_cache, on_finish := on_finish }

/-- Modelled from the spec: `ShutdownRequest::send`
(`librbd/cache/pwl/ShutdownRequest.h`).  The request is now in flight; its
`on_finish` is called when the shutdown of the cache has completed. -/
def ShutdownRequest.send (req : ShutdownRequest) : Dispatch Unit := fun w =>
  (.ok (), { w with shutdown_requests := w.shutdown_requests ++ [req],
                    trace := w.trace ++ [.shutdown_request_send req] })

/-- The call `ctx->complete(r)`.  For the lambda of `shut_down` this is its
body: `m_image_cache = nullptr; on_finish->complete(r);`. -/
def Context.complete : Context → Int → World → World
  | .user id, r, w => { w with trace := w.trace ++ [.context_complete id r] }
  | .shut_down_lambda on_finish, r, w =>
      Context.complete on_finish r
        { w with m_image_cache := none, trace := w.trace ++ [.image_cache_cleared] }

/-! ## ImageDispatch.cc -/

def start_in_flight_io : Dispatch Unit := do
  if !(← started) then
    start_op

def shut_down (on_finish : Context) : Dispatch Unit := do
  let m_image_cache ← get_m_image_cache
  ceph_assert (m_image_cache != none)
  let ctx := Context.shut_down_lambda on_finish
  let req := ShutdownRequest.create m_image_cache ctx
  req.send

def preprocess_length (image_extents : Extents) : Dispatch Bool := do
  let total_bytes := extents_length image_extents
  if total_bytes == 0 then
    set_request_count 0
    return true
  return false

def read (image_extents : Extents) (read_result : ReadResult) (op_flags : Int) :
    Dispatch Bool := do
  set_dispatch_result .DISPATCH_RESULT_COMPLETE
  if (← preprocess_length image_extents) then
    return true
  start_in_flight_io
  set_request_count 1
  set_read_result read_result
  let length := to_uint64 (extents_length image_extents)
  set_clip_length length
  aio_read image_extents op_flags
  return true

def write (image_extents : Extents) (bl : Bufferlist) (op_flags : Int) :
    Dispatch Bool := do
  set_dispatch_result .DISPATCH_RESULT_COMPLETE
  if (← preprocess_length image_extents) then
    return true
  start_in_flight_io
  set_request_count 1
  aio_write image_extents bl op_flags
  return true

/-- The loop `for (auto &extent : image_extents)` of `discard`. -/
def discard_each (discard_granularity_bytes : Nat) : Extents → Dispatch Unit
  | [] => pure ()
  | extent :: rest => do
      aio_discard extent.1 extent.2 discard_granularity_bytes
      discard_each discard_granularity_bytes rest

def discard (image_extents : Extents) (discard_granularity_bytes : Nat) :
    Dispatch Bool := do
  set_dispatch_result .DISPATCH_RESULT_COMPLETE
  if (← preprocess_length image_extents) then
    return true
  start_in_flight_io
  set_request_count image_extents.length
  discard_each discard_granularity_bytes image_extents
  return true

/-- The loop `for (auto &extent : image_extents)` of `write_same`; `bl` is the
caller's bufferlist variable, passed as `std::move(bl)` on every round. -/
def write_same_each (op_flags : Int) : Extents → Bufferlist → Dispatch Unit
  | [], _ => pure ()
  | extent :: rest, bl => do
      let bl ← aio_writesame extent.1 extent.2 bl op_flags
      write_same_each op_flags rest bl

def write_same (image_extents : Extents) (bl : Bufferlist) (op_flags : Int) :
    Dispatch Bool := do
  set_dispatch_result .DISPATCH_RESULT_COMPLETE
  if (← preprocess_length image_extents) then
    return true
  start_in_flight_io
  set_request_count image_extents.length
  write_same_each op_flags image_extents bl
  return true

def compare_and_write (image_extents : Extents) (cmp_bl bl : Bufferlist)
    (mismatch_offset : Nat) (op_flags : Int) : Dispatch Bool := do
  set_dispatch_result .DISPATCH_RESULT_COMPLETE
  if (← preprocess_length image_extents) then
    return true
  start_in_flight_io
  set_request_count 1
  aio_compare_and_write image_extents cmp_bl bl mismatch_offset op_flags
  return true

def flush (flush_source : FlushSource) : Dispatch Bool := do
  start_in_flight_io
  set_dispatch_result .DISPATCH_RESULT_COMPLETE
  set_request_count 1
  aio_flush flush_source
  return true

def list_snaps (_image_extents : Extents) (_snap_ids : List Nat)
    (_list_snaps_flags : Int) : Dispatch Bool :=
  ceph_abort


/-! ## Vocabulary for the statements -/

/-- One dispatch call with its arguments. -/
inductive Op
  | read (image_extents : Extents) (read_result : ReadResult) (op_flags : Int)
  | write (image_extents : Extents) (bl : Bufferlist) (op_flags : Int)
  | discard (image_extents : Extents) (discard_granularity_bytes : Nat)
  | write_same (image_extents : Extents) (bl : Bufferlist) (op_flags : Int)
  | compare_and_write (image_extents : Extents) (cmp_bl bl : Bufferlist)
      (mismatch_offset : Nat) (op_flags : Int)
  | flush (flush_source : FlushSource)
  deriving DecidableEq, Repr

def Op.run : Op → Dispatch Bool
  | .read image_extents read_result op_flags =>
      ImageDispatch.read image_extents read_result op_flags
  | .write image_extents bl op_flags => ImageDispatch.write image_extents bl op_flags
  | .discard image_extents discard_granularity_bytes =>
      ImageDispatch.discard image_extents discard_granularity_bytes
  | .write_same image_extents bl op_flags => ImageDispatch.write_same image_extents bl op_flags
  | .compare_and_write image_extents cmp_bl bl mismatch_offset op_flags =>
      ImageDispatch.compare_and_write image_extents cmp_bl bl mismatch_offset op_flags
  | .flush flush_source => ImageDispatch.flush flush_source

/-- The extents a dispatch call carries; `flush` carries none. -/
def Op.image_extents : Op → Option Extents
  | .read image_extents _ _ => some image_extents
  | .write image_extents _ _ => some image_extents
  | .discard image_extents _ => some image_extents
  | .write_same image_extents _ _ => some image_extents
  | .compare_and_write image_extents _ _ _ _ => some image_extents
  | .flush _ => none

/-- The call carries extents and their total length is zero. -/
def Op.zero_length (op : Op) : Bool :=
  match op.image_extents with
  | some image_extents => extents_length image_extents == 0
  | none => false

/-- The events a run appended to the trace: what `w1` has beyond `w`. -/
def issued (w w1 : World) : List Event :=
  w1.trace.drop w.trace.length

/-- What `start_in_flight_io` appends to the trace in world `w`. -/
def start_events (w : World) : List Event :=
  if w.aio_comp.started then [] else [.start_op]

/-- The `aio_writesame` calls the loop of `write_same` makes on a cache,
given what the caller's `bl` holds when the loop is entered. -/
def writesame_calls (takes_bl : Bool) (op_flags : Int) : Extents → Bufferlist → List Event
  | [], _ => []
  | extent :: rest, bl =>
      .aio_writesame extent.1 extent.2 bl op_flags ::
        writesame_calls takes_bl op_flags rest (if takes_bl then [] else bl)

/-- Dispatch calls made one after the other; a fault ends the run. -/
def run_ops : List Op → World → World
  | [], w => w
  | op :: rest, w =>
      match op.run w with
      | (.ok _, w1) => run_ops rest w1
      | (.error _, w1) => w1

/-- Modelled from the spec: the completion of shutdown request `req` fires
with result `r`: the request leaves the set of requests in flight and its
`on_finish` is completed with `r`.  Nothing happens for a request that is
not in flight. -/
def ShutdownRequest.finish (req : ShutdownRequest) (r : Int) (w : World) : World :=
  if req ∈ w.shutdown_requests then
    Context.complete req.on_finish r
      { w with shutdown_requests := w.shutdown_requests.erase req }
  else w

/-- A dispatcher with a live cache (one that takes over the buffers it is
handed) and a completion that has not been started. -/
def live_world : World :=
  { m_image_cache := some { takes_bl := true },
    aio_comp := { started := false, pending_count := 0, read_result := none },
    dispatch_result := none, shutdown_requests := [], trace := [] }

/-- A dispatcher whose cache pointer has been cleared by a finished shutdown. -/
def shut_world : World :=
  { m_image_cache := none,
    aio_comp := { started := false, pending_count := 0, read_result := none },
    dispatch_result := none, shutdown_requests := [], trace := [] }

/-- Two extents with `uint64_t` lengths that add up to `2 ^ 64`: the total
of the lengths is not 0, the 64-bit total is. -/
def wrapping_extents : Extents :=
  [(0, 2 ^ 63), (4096, 2 ^ 63)]

/-! ## Basic facts about runs -/

theorem bind_run {α β : Type} (m : Dispatch α) (f : α → Dispatch β) (w : World) :
    (m >>= f) w = match m w with
      | (.ok a, w1) => f a w1
      | (.error e, w1) => (.error e, w1) := rfl

theorem pure_run {α : Type} (a : α) (w : World) :
    (pure a : Dispatch α) w = (.ok a, w) := rfl

theorem to_uint64_extents_length (image_extents : Extents) :
    to_uint64 (extents_length image_extents) = extents_length image_extents := by
  simp [extents_length, to_uint64]

/-- A list of extents whose lengths add up to 0 has a 64-bit total of 0. -/
theorem extents_length_of_sum_eq_zero (image_extents : Extents)
    (h : (image_extents.map Prod.snd).sum = 0) : extents_length image_extents = 0 := by
  simp [extents_length, to_uint64, h]

theorem discard_each_run (g : Nat) (c : ImageCache) :
    ∀ (image_extents : Extents) (w : World), w.m_image_cache = some c →
      discard_each g image_extents w =
        (.ok (), { w with trace := w.trace ++
          (image_extents.map (fun e => Event.aio_discard e.1 e.2 g)) })
  | [], w, _ => by simp [discard_each, pure_run]
  | e :: rest, ⟨m, a, d, s, t⟩, hc => by
      simp only at hc
      subst hc
      simp [discard_each, bind_run, aio_discard, image_cache, emit,
        discard_each_run g c rest ⟨some c, a, d, s, t ++ [Event.aio_discard e.1 e.2 g]⟩ rfl]

theorem discard_each_null (g : Nat) (e : Extent) (rest : Extents) (w : World)
    (hc : w.m_image_cache = none) :
    discard_each g (e :: rest) w = (.error .null_image_cache, w) := by
  simp [discard_each, bind_run, aio_discard, image_cache, hc]

theorem write_same_each_run (op_flags : Int) (c : ImageCache) :
    ∀ (image_extents : Extents) (bl : Bufferlist) (w : World), w.m_image_cache = some c →
      write_same_each op_flags image_extents bl w =
        (.ok (), { w with trace := w.trace ++
          (writesame_calls c.takes_bl op_flags image_extents bl) })
  | [], bl, w, _ => by simp [write_same_each, writesame_calls, pure_run]
  | e :: rest, bl, ⟨m, a, d, s, t⟩, hc => by
      simp only at hc
      subst hc
      simp [write_same_each, writesame_calls, bind_run, pure_run, aio_writesame, image_cache,
        emit, write_same_each_run op_flags c rest (if c.takes_bl then [] else bl)
          ⟨some c, a, d, s, t ++ [Event.aio_writesame e.1 e.2 bl op_flags]⟩ rfl]

theorem discard_each_run_mk (g : Nat) (c : ImageCache) (image_extents : Extents)
    (a : AioCompletion) (d : Option DispatchResult) (s : List ShutdownRequest)
    (t : List Event) :
    discard_each g image_extents ⟨some c, a, d, s, t⟩ =
      (.ok (), ⟨some c, a, d, s,
        t ++ image_extents.map (fun e => Event.aio_discard e.1 e.2 g)⟩) :=
  discard_each_run g c image_extents ⟨some c, a, d, s, t⟩ rfl

theorem write_same_each_run_mk (op_flags : Int) (c : ImageCache) (image_extents : Extents)
    (bl : Bufferlist) (a : AioCompletion) (d : Option DispatchResult)
    (s : List ShutdownRequest) (t : List Event) :
    write_same_each op_flags image_extents bl ⟨some c, a, d, s, t⟩ =
      (.ok (), ⟨some c, a, d, s,
        t ++ writesame_calls c.takes_bl op_flags image_extents bl⟩) :=
  write_same_each_run op_flags c image_extents bl ⟨some c, a, d, s, t⟩ rfl

theorem write_same_each_null (op_flags : Int) (e : Extent) (rest : Extents) (bl : Bufferlist)
    (w : World) (hc : w.m_image_cache = none) :
    write_same_each op_flags (e :: rest) bl w = (.error .null_image_cache, w) := by
  simp [write_same_each, bind_run, aio_writesame, image_cache, hc]

/-! ## What each entry point does, case by case -/

theorem read_zero (image_extents : Extents) (read_result : ReadResult) (op_flags : Int) (w : World)
    (hzero : extents_length image_extents = 0) :
    read image_extents read_result op_flags w =
      (.ok true, { w with
        dispatch_result := some .DISPATCH_RESULT_COMPLETE,
        aio_comp := { w.aio_comp with pending_count := 0 },
        trace := w.trace ++ [.set_request_count 0] }) := by
  simp [read, preprocess_length, hzero, bind_run, pure_run, set_dispatch_result,
    set_request_count]

theorem write_zero (image_extents : Extents) (bl : Bufferlist) (op_flags : Int) (w : World)
    (hzero : extents_length image_extents = 0) :
    write image_extents bl op_flags w =
      (.ok true, { w with
        dispatch_result := some .DISPATCH_RESULT_COMPLETE,
        aio_comp := { w.aio_comp with pending_count := 0 },
        trace := w.trace ++ [.set_request_count 0] }) := by
  simp [write, preprocess_length, hzero, bind_run, pure_run, set_dispatch_result,
    set_request_count]

theorem discard_zero (image_extents : Extents) (discard_granularity_bytes : Nat) (w : World)
    (hzero : extents_length image_extents = 0) :
    discard image_extents discard_granularity_bytes w =
      (.ok true, { w with
        dispatch_result := some .DISPATCH_RESULT_COMPLETE,
        aio_comp := { w.aio_comp with pending_count := 0 },
        trace := w.trace ++ [.set_request_count 0] }) := by
  simp [discard, preprocess_length, hzero, bind_run, pure_run, set_dispatch_result,
    set_request_count]

theorem write_same_zero (image_extents : Extents) (bl : Bufferlist) (op_flags : Int) (w : World)
    (hzero : extents_length image_extents = 0) :
    write_same image_extents bl op_flags w =
      (.ok true, { w with
        dispatch_result := some .DISPATCH_RESULT_COMPLETE,
        aio_comp := { w.aio_comp with pending_count := 0 },
        trace := w.trace ++ [.set_request_count 0] }) := by
  simp [write_same, preprocess_length, hzero, bind_run, pure_run, set_dispatch_result,
    set_request_count]

theorem compare_and_write_zero (image_extents : Extents) (cmp_bl bl : Bufferlist) (mismatch_offset : Nat) (op_flags : Int) (w : World)
    (hzero : extents_length image_extents = 0) :
    compare_and_write image_extents cmp_bl bl mismatch_offset op_flags w =
      (.ok true, { w with
        dispatch_result := some .DISPATCH_RESULT_COMPLETE,
        aio_comp := { w.aio_comp with pending_count := 0 },
        trace := w.trace ++ [.set_request_count 0] }) := by
  simp [compare_and_write, preprocess_length, hzero, bind_run, pure_run, set_dispatch_result,
    set_request_count]

theorem read_run (image_extents : Extents) (read_result : ReadResult) (op_flags : Int) (w : World)
    (c : ImageCache) (hnz : extents_length image_extents ≠ 0)
    (hc : w.m_image_cache = some c) :
    read image_extents read_result op_flags w =
      (.ok true, { w with
        dispatch_result := some .DISPATCH_RESULT_COMPLETE,
        aio_comp := { w.aio_comp with started := true, pending_count := 1
                                      read_result := some { read_result with
                                        clip_length := some (extents_length image_extents) } },
        trace := w.trace ++ (start_events w ++ [.set_request_count 1] ++
          [.set_read_result read_result, .set_clip_length (extents_length image_extents)] ++ [.aio_read image_extents op_flags]) }) := by
  cases hs : w.aio_comp.started <;>
  simp [read, preprocess_length, hnz, bind_run, pure_run, set_dispatch_result,
    set_request_count, start_in_flight_io, started, start_op, start_events, image_cache, emit,
    set_read_result, set_clip_length, aio_read, to_uint64_extents_length, hc, hs]

theorem read_null (image_extents : Extents) (read_result : ReadResult) (op_flags : Int) (w : World)
    (hnz : extents_length image_extents ≠ 0) (hc : w.m_image_cache = none) :
    read image_extents read_result op_flags w =
      (.error .null_image_cache, { w with
        dispatch_result := some .DISPATCH_RESULT_COMPLETE,
        aio_comp := { w.aio_comp with started := true, pending_count := 1
                                      read_result := some { read_result with
                                        clip_length := some (extents_length image_extents) } },
        trace := w.trace ++ (start_events w ++ [.set_request_count 1] ++
          [.set_read_result read_result, .set_clip_length (extents_length image_extents)]) }) := by
  cases hs : w.aio_comp.started <;>
  simp [read, preprocess_length, hnz, bind_run, pure_run, set_dispatch_result,
    set_request_count, start_in_flight_io, started, start_op, start_events, image_cache, emit,
    set_read_result, set_clip_length, aio_read, to_uint64_extents_length, hc, hs]

theorem write_run (image_extents : Extents) (bl : Bufferlist) (op_flags : Int) (w : World)
    (c : ImageCache) (hnz : extents_length image_extents ≠ 0)
    (hc : w.m_image_cache = some c) :
    write image_extents bl op_flags w =
      (.ok true, { w with
        dispatch_result := some .DISPATCH_RESULT_COMPLETE,
        aio_comp := { w.aio_comp with started := true, pending_count := 1 },
        trace := w.trace ++ (start_events w ++ [.set_request_count 1] ++
          [] ++ [.aio_write image_extents bl op_flags]) }) := by
  cases hs : w.aio_comp.started <;>
  simp [write, preprocess_length, hnz, bind_run, pure_run, set_dispatch_result,
    set_request_count, start_in_flight_io, started, start_op, start_events, image_cache, emit,
    aio_write, hc, hs]

theorem write_null (image_extents : Extents) (bl : Bufferlist) (op_flags : Int) (w : World)
    (hnz : extents_length image_extents ≠ 0) (hc : w.m_image_cache = none) :
    write image_extents bl op_flags w =
      (.error .null_image_cache, { w with
        dispatch_result := some .DISPATCH_RESULT_COMPLETE,
        aio_comp := { w.aio_comp with started := true, pending_count := 1 },
        trace := w.trace ++ (start_events w ++ [.set_request_count 1] ++
          []) }) := by
  cases hs : w.aio_comp.started <;>
  simp [write, preprocess_length, hnz, bind_run, pure_run, set_dispatch_result,
    set_request_count, start_in_flight_io, started, start_op, start_events, image_cache, emit,
    aio_write, hc, hs]

theorem compare_and_write_run (image_extents : Extents) (cmp_bl bl : Bufferlist) (mismatch_offset : Nat) (op_flags : Int) (w : World)
    (c : ImageCache) (hnz : extents_length image_extents ≠ 0)
    (hc : w.m_image_cache = some c) :
    compare_and_write image_extents cmp_bl bl mismatch_offset op_flags w =
      (.ok true, { w with
        dispatch_result := some .DISPATCH_RESULT_COMPLETE,
        aio_comp := { w.aio_comp with started := true, pending_count := 1 },
        trace := w.trace ++ (start_events w ++ [.set_request_count 1] ++
          [] ++ [.aio_compare_and_write image_extents cmp_bl bl mismatch_offset op_flags]) }) := by
  cases hs : w.aio_comp.started <;>
  simp [compare_and_write, preprocess_length, hnz, bind_run, pure_run, set_dispatch_result,
    set_request_count, start_in_flight_io, started, start_op, start_events, image_cache, emit,
    aio_compare_and_write, hc, hs]

theorem compare_and_write_null (image_extents : Extents) (cmp_bl bl : Bufferlist) (mismatch_offset : Nat) (op_flags : Int) (w : World)
    (hnz : extents_length image_extents ≠ 0) (hc : w.m_image_cache = none) :
    compare_and_write image_extents cmp_bl bl mismatch_offset op_flags w =
      (.error .null_image_cache, { w with
        dispatch_result := some .DISPATCH_RESULT_COMPLETE,
        aio_comp := { w.aio_comp with started := true, pending_count := 1 },
        trace := w.trace ++ (start_events w ++ [.set_request_count 1] ++
          []) }) := by
  cases hs : w.aio_comp.started <;>
  simp [compare_and_write, preprocess_length, hnz, bind_run, pure_run, set_dispatch_result,
    set_request_count, start_in_flight_io, started, start_op, start_events, image_cache, emit,
    aio_compare_and_write, hc, hs]

theorem flush_run (flush_source : FlushSource) (w : World) (c : ImageCache)
    (hc : w.m_image_cache = some c) :
    flush flush_source w =
      (.ok true, { w with
        dispatch_result := some .DISPATCH_RESULT_COMPLETE,
        aio_comp := { w.aio_comp with started := true, pending_count := 1 },
        trace := w.trace ++ (start_events w ++ [.set_request_count 1] ++
          [.aio_flush flush_source]) }) := by
  cases hs : w.aio_comp.started <;>
  simp [flush, bind_run, pure_run, set_dispatch_result, set_request_count,
    start_in_flight_io, started, start_op, start_events, image_cache, emit, aio_flush, hc, hs]

theorem flush_null (flush_source : FlushSource) (w : World)
    (hc : w.m_image_cache = none) :
    flush flush_source w =
      (.error .null_image_cache, { w with
        dispatch_result := some .DISPATCH_RESULT_COMPLETE,
        aio_comp := { w.aio_comp with started := true, pending_count := 1 },
        trace := w.trace ++ (start_events w ++ [.set_request_count 1]) }) := by
  cases hs : w.aio_comp.started <;>
  simp [flush, bind_run, pure_run, set_dispatch_result, set_request_count,
    start_in_flight_io, started, start_op, start_events, image_cache, emit, aio_flush, hc, hs]

theorem discard_run (image_extents : Extents) (discard_granularity_bytes : Nat) (w : World)
    (c : ImageCache) (hnz : extents_length image_extents ≠ 0)
    (hc : w.m_image_cache = some c) :
    discard image_extents discard_granularity_bytes w =
      (.ok true, { w with
        dispatch_result := some .DISPATCH_RESULT_COMPLETE,
        aio_comp := { w.aio_comp with started := true, pending_count := image_extents.length },
        trace := w.trace ++ (start_events w ++ [.set_request_count image_extents.length] ++
          image_extents.map
            (fun e => Event.aio_discard e.1 e.2 discard_granularity_bytes)) }) := by
  obtain ⟨m, ⟨st, pc, rr⟩, d, s, t⟩ := w
  simp only at hc
  subst hc
  cases st <;>
  simp [discard, preprocess_length, hnz, bind_run, pure_run, set_dispatch_result,
    set_request_count, start_in_flight_io, started, start_op, start_events,
    discard_each_run_mk]

theorem discard_null (image_extents : Extents) (discard_granularity_bytes : Nat) (w : World)
    (hnz : extents_length image_extents ≠ 0) (hc : w.m_image_cache = none) :
    discard image_extents discard_granularity_bytes w =
      (.error .null_image_cache, { w with
        dispatch_result := some .DISPATCH_RESULT_COMPLETE,
        aio_comp := { w.aio_comp with started := true, pending_count := image_extents.length },
        trace := w.trace ++ (start_events w ++
          [.set_request_count image_extents.length]) }) := by
  obtain ⟨m, ⟨st, pc, rr⟩, d, s, t⟩ := w
  simp only at hc
  subst hc
  cases image_extents with
  | nil => exact absurd rfl hnz
  | cons e rest =>
    cases st <;>
    simp [discard, preprocess_length, hnz, bind_run, pure_run, set_dispatch_result,
      set_request_count, start_in_flight_io, started, start_op, start_events,
      discard_each_null]

theorem write_same_run (image_extents : Extents) (bl : Bufferlist) (op_flags : Int) (w : World)
    (c : ImageCache) (hnz : extents_length image_extents ≠ 0)
    (hc : w.m_image_cache = some c) :
    write_same image_extents bl op_flags w =
      (.ok true, { w with
        dispatch_result := some .DISPATCH_RESULT_COMPLETE,
        aio_comp := { w.aio_comp with started := true, pending_count := image_extents.length },
        trace := w.trace ++ (start_events w ++ [.set_request_count image_extents.length] ++
          writesame_calls c.takes_bl op_flags image_extents bl) }) := by
  obtain ⟨m, ⟨st, pc, rr⟩, d, s, t⟩ := w
  simp only at hc
  subst hc
  cases st <;>
  simp [write_same, preprocess_length, hnz, bind_run, pure_run, set_dispatch_result,
    set_request_count, start_in_flight_io, started, start_op, start_events,
    write_same_each_run_mk]

theorem write_same_null (image_extents : Extents) (bl : Bufferlist) (op_flags : Int) (w : World)
    (hnz : extents_length image_extents ≠ 0) (hc : w.m_image_cache = none) :
    write_same image_extents bl op_flags w =
      (.error .null_image_cache, { w with
        dispatch_result := some .DISPATCH_RESULT_COMPLETE,
        aio_comp := { w.aio_comp with started := true, pending_count := image_extents.length },
        trace := w.trace ++ (start_events w ++
          [.set_request_count image_extents.length]) }) := by
  obtain ⟨m, ⟨st, pc, rr⟩, d, s, t⟩ := w
  simp only at hc
  subst hc
  cases image_extents with
  | nil => exact absurd rfl hnz
  | cons e rest =>
    cases st <;>
    simp [write_same, preprocess_length, hnz, bind_run, pure_run, set_dispatch_result,
      set_request_count, start_in_flight_io, started, start_op, start_events,
      write_same_each_null]

/-! ## One summary for every dispatch call -/

theorem writesame_calls_shape (takes_bl : Bool) (op_flags : Int) :
    ∀ (image_extents : Extents) (bl : Bufferlist),
      ∀ e ∈ writesame_calls takes_bl op_flags image_extents bl,
        ∃ offset length bl1, e = Event.aio_writesame offset length bl1 op_flags
  | [], _, e, he => by simp [writesame_calls] at he
  | x :: rest, bl, e, he => by
      simp only [writesame_calls, List.mem_cons] at he
      rcases he with rfl | he
      · exact ⟨_, _, _, rfl⟩
      · exact writesame_calls_shape takes_bl op_flags rest _ e he

theorem run_summary (op : Op) (w : World) :
    ∃ (res : Except Fault Bool) (a : AioCompletion) (pre post : List Event),
      op.run w = (res, { w with
        dispatch_result := some .DISPATCH_RESULT_COMPLETE, aio_comp := a,
        trace := w.trace ++ (pre ++ Event.set_request_count a.pending_count :: post) }) ∧
      pre = (if op.zero_length then [] else start_events w) ∧
      a.started = (w.aio_comp.started || !op.zero_length) ∧
      (op.zero_length = true → post = [] ∧ a = { w.aio_comp with pending_count := 0 }) ∧
      (∀ e ∈ post, e.is_backend_call = true ∨ e.is_read_result_install = true) ∧
      res = (if !op.zero_length && w.m_image_cache.isNone then .error .null_image_cache
             else .ok true) ∧
      (w.m_image_cache = none → backend_calls post = []) := by
  cases op with
  | read image_extents read_result op_flags =>
    by_cases hz : extents_length image_extents = 0
    · refine ⟨.ok true, { w.aio_comp with pending_count := 0 }, [], [], ?_, ?_⟩
      · simp [Op.run, read_zero _ _ _ _ hz]
      · simp [Op.zero_length, Op.image_extents, hz, backend_calls]
    · cases hc : w.m_image_cache with
      | none =>
        refine ⟨.error .null_image_cache,
          { w.aio_comp with started := true, pending_count := 1
                            read_result := some { read_result with
                              clip_length := some (extents_length image_extents) } },
          start_events w, [.set_read_result read_result, .set_clip_length (extents_length image_extents)], ?_, ?_⟩
        · simp [Op.run, read_null _ _ _ _ hz hc, hc]
        · simp [Op.zero_length, Op.image_extents, hz, Event.is_read_result_install,
            backend_calls, Event.is_backend_call]
      | some c =>
        refine ⟨.ok true,
          { w.aio_comp with started := true, pending_count := 1
                            read_result := some { read_result with
                              clip_length := some (extents_length image_extents) } },
          start_events w, [.set_read_result read_result, .set_clip_length (extents_length image_extents),
          .aio_read image_extents op_flags], ?_, ?_⟩
        · simp [Op.run, read_run _ _ _ _ c hz hc, hc]
        · simp [Op.zero_length, Op.image_extents, hz, Event.is_read_result_install,
            Event.is_backend_call]
  | write image_extents bl op_flags =>
    by_cases hz : extents_length image_extents = 0
    · refine ⟨.ok true, { w.aio_comp with pending_count := 0 }, [], [], ?_, ?_⟩
      · simp [Op.run, write_zero _ _ _ _ hz]
      · simp [Op.zero_length, Op.image_extents, hz, backend_calls]
    · cases hc : w.m_image_cache with
      | none =>
        refine ⟨.error .null_image_cache,
          { w.aio_comp with started := true, pending_count := 1 },
          start_events w, [], ?_, ?_⟩
        · simp [Op.run, write_null _ _ _ _ hz hc, hc]
        · simp [Op.zero_length, Op.image_extents, hz, Event.is_read_result_install,
            backend_calls, Event.is_backend_call]
      | some c =>
        refine ⟨.ok true,
          { w.aio_comp with started := true, pending_count := 1 },
          start_events w, [.aio_write image_extents bl op_flags], ?_, ?_⟩
        · simp [Op.run, write_run _ _ _ _ c hz hc, hc]
        · simp [Op.zero_length, Op.image_extents, hz, Event.is_read_result_install,
            Event.is_backend_call]
  | discard image_extents g =>
    by_cases hz : extents_length image_extents = 0
    · refine ⟨.ok true, { w.aio_comp with pending_count := 0 }, [], [], ?_, ?_⟩
      · simp [Op.run, discard_zero _ _ _ hz]
      · simp [Op.zero_length, Op.image_extents, hz, backend_calls]
    · cases hc : w.m_image_cache with
      | none =>
        refine ⟨.error .null_image_cache,
          { w.aio_comp with started := true, pending_count := image_extents.length },
          start_events w, [], ?_, ?_⟩
        · simp [Op.run, discard_null _ _ _ hz hc, hc]
        · simp [Op.zero_length, Op.image_extents, hz, Event.is_read_result_install,
            backend_calls, Event.is_backend_call]
      | some c =>
        refine ⟨.ok true,
          { w.aio_comp with started := true, pending_count := image_extents.length },
          start_events w, image_extents.map (fun e => Event.aio_discard e.1 e.2 g), ?_, ?_⟩
        · simp [Op.run, discard_run _ _ _ c hz hc, hc]
        · refine ⟨by simp [Op.zero_length, Op.image_extents, hz],
            by simp [Op.zero_length, Op.image_extents, hz],
            by simp [Op.zero_length, Op.image_extents, hz], ?_,
            by simp [Op.zero_length, Op.image_extents, hz], by simp [hc]⟩
          intro e he
          obtain ⟨x, _, rfl⟩ := List.mem_map.mp he
          simp [Event.is_backend_call]
  | write_same image_extents bl op_flags =>
    by_cases hz : extents_length image_extents = 0
    · refine ⟨.ok true, { w.aio_comp with pending_count := 0 }, [], [], ?_, ?_⟩
      · simp [Op.run, write_same_zero _ _ _ _ hz]
      · simp [Op.zero_length, Op.image_extents, hz, backend_calls]
    · cases hc : w.m_image_cache with
      | none =>
        refine ⟨.error .null_image_cache,
          { w.aio_comp with started := true, pending_count := image_extents.length },
          start_events w, [], ?_, ?_⟩
        · simp [Op.run, write_same_null _ _ _ _ hz hc, hc]
        · simp [Op.zero_length, Op.image_extents, hz, Event.is_read_result_install,
            backend_calls, Event.is_backend_call]
      | some c =>
        refine ⟨.ok true,
          { w.aio_comp with started := true, pending_count := image_extents.length },
          start_events w, writesame_calls c.takes_bl op_flags image_extents bl, ?_, ?_⟩
        · simp [Op.run, write_same_run _ _ _ _ c hz hc, hc]
        · refine ⟨by simp [Op.zero_length, Op.image_extents, hz],
            by simp [Op.zero_length, Op.image_extents, hz],
            by simp [Op.zero_length, Op.image_extents, hz], ?_,
            by simp [Op.zero_length, Op.image_extents, hz], by simp [hc]⟩
          intro e he
          obtain ⟨o, l, b, rfl⟩ := writesame_calls_shape _ _ _ _ e he
          simp [Event.is_backend_call]
  | compare_and_write image_extents cmp_bl bl mismatch_offset op_flags =>
    by_cases hz : extents_length image_extents = 0
    · refine ⟨.ok true, { w.aio_comp with pending_count := 0 }, [], [], ?_, ?_⟩
      · simp [Op.run, compare_and_write_zero _ _ _ _ _ _ hz]
      · simp [Op.zero_length, Op.image_extents, hz, backend_calls]
    · cases hc : w.m_image_cache with
      | none =>
        refine ⟨.error .null_image_cache,
          { w.aio_comp with started := true, pending_count := 1 },
          start_events w, [], ?_, ?_⟩
        · simp [Op.run, compare_and_write_null _ _ _ _ _ _ hz hc, hc]
        · simp [Op.zero_length, Op.image_extents, hz, Event.is_read_result_install,
            backend_calls, Event.is_backend_call]
      | some c =>
        refine ⟨.ok true,
          { w.aio_comp with started := true, pending_count := 1 },
          start_events w, [.aio_compare_and_write image_extents cmp_bl bl mismatch_offset op_flags], ?_, ?_⟩
        · simp [Op.run, compare_and_write_run _ _ _ _ _ _ c hz hc, hc]
        · simp [Op.zero_length, Op.image_extents, hz, Event.is_read_result_install,
            Event.is_backend_call]
  | flush flush_source =>
    cases hc : w.m_image_cache with
    | none =>
      refine ⟨.error .null_image_cache,
        { w.aio_comp with started := true, pending_count := 1 }, start_events w, [], ?_, ?_⟩
      · simp [Op.run, flush_null _ _ hc, hc]
      · simp [Op.zero_length, Op.image_extents, backend_calls]
    | some c =>
      refine ⟨.ok true, { w.aio_comp with started := true, pending_count := 1 },
        start_events w, [.aio_flush flush_source], ?_, ?_⟩
      · simp [Op.run, flush_run _ _ c hc, hc]
      · simp [Op.zero_length, Op.image_extents, Event.is_backend_call]

theorem filter_start_op_post (post : List Event)
    (h : ∀ e ∈ post, e.is_backend_call = true ∨ e.is_read_result_install = true) :
    post.filter Event.is_start_op = [] := by
  rw [List.filter_eq_nil_iff]
  intro e he
  rcases h e he with h1 | h1 <;> cases e <;>
    simp_all [Event.is_backend_call, Event.is_read_result_install, Event.is_start_op]

theorem filter_set_request_count_post (post : List Event)
    (h : ∀ e ∈ post, e.is_backend_call = true ∨ e.is_read_result_install = true) :
    post.filter Event.is_set_request_count = [] := by
  rw [List.filter_eq_nil_iff]
  intro e he
  rcases h e he with h1 | h1 <;> cases e <;>
    simp_all [Event.is_backend_call, Event.is_read_result_install, Event.is_set_request_count]

theorem filter_context_complete_post (post : List Event)
    (h : ∀ e ∈ post, e.is_backend_call = true ∨ e.is_read_result_install = true) :
    post.filter Event.is_context_complete = [] := by
  rw [List.filter_eq_nil_iff]
  intro e he
  rcases h e he with h1 | h1 <;> cases e <;>
    simp_all [Event.is_backend_call, Event.is_read_result_install, Event.is_context_complete]

theorem start_events_no_backend (w : World) : backend_calls (start_events w) = [] := by
  cases hs : w.aio_comp.started <;> simp [start_events, backend_calls, hs, Event.is_backend_call]

/-! ## The zero-length fast path -/

/-- C1: for `read`, `write`, `discard`, `write_same` and `compare_and_write`
(the calls that carry extents), when the extents' total length is 0 (as
`extents_length` computes it in 64 bits, which is so in particular when the
lengths add up to 0: `extents_length_of_sum_eq_zero`) the call returns `true` with `*dispatch_result = DISPATCH_RESULT_COMPLETE`, sets
the pending count of the completion to 0, makes no cache call, does not call
`start_op` (the started flag is what it was) and installs no read result or
clip length (the read result on the completion is what it was): the only
thing it does to the completion is `set_request_count(0)`. -/
theorem zero_length_fast_path (op : Op) (image_extents : Extents) (w : World)
    (hop : op.image_extents = some image_extents)
    (hzero : extents_length image_extents = 0) :
    ∃ w1, op.run w = (.ok true, w1) ∧
      w1.dispatch_result = some .DISPATCH_RESULT_COMPLETE ∧
      w1.aio_comp.pending_count = 0 ∧
      issued w w1 = [.set_request_count 0] ∧
      backend_calls (issued w w1) = [] ∧
      (issued w w1).filter Event.is_start_op = [] ∧
      w1.aio_comp.started = w.aio_comp.started ∧
      (issued w w1).filter Event.is_read_result_install = [] ∧
      w1.aio_comp.read_result = w.aio_comp.read_result := by
  have hz : op.zero_length = true := by simp [Op.zero_length, hop, hzero]
  obtain ⟨res, a, pre, post, hrun, hpre, -, hzl, -, hres, -⟩ := run_summary op w
  obtain ⟨hpost, ha⟩ := hzl hz
  subst hpost ha
  simp only [hz, if_true] at hpre
  subst hpre
  simp only [hz, Bool.not_true, Bool.false_and, Bool.false_eq_true, if_false] at hres
  subst hres
  refine ⟨_, hrun, ?_⟩
  simp [issued, backend_calls, Event.is_backend_call, Event.is_start_op,
    Event.is_read_result_install]

theorem zero_length_fast_path_witness :
    (Op.read [(4096, 0)] ⟨7, none⟩ 0).image_extents = some [(4096, 0)] ∧
    extents_length [(4096, 0)] = 0 ∧
    ∃ w1, (Op.read [(4096, 0)] ⟨7, none⟩ 0).run live_world = (.ok true, w1) ∧
      w1.dispatch_result = some .DISPATCH_RESULT_COMPLETE ∧
      w1.aio_comp.pending_count = 0 ∧
      issued live_world w1 = [.set_request_count 0] ∧
      backend_calls (issued live_world w1) = [] ∧
      (issued live_world w1).filter Event.is_start_op = [] ∧
      w1.aio_comp.started = live_world.aio_comp.started ∧
      (issued live_world w1).filter Event.is_read_result_install = [] ∧
      w1.aio_comp.read_result = live_world.aio_comp.read_result :=
  ⟨rfl, rfl, zero_length_fast_path _ _ live_world rfl rfl⟩

/-! ## In-flight marking -/

/-- C5: `start_in_flight_io` calls `start_op` exactly when the completion is
not started yet, so running it twice is the same as running it once and
`start_op` runs at most once; and every dispatch call that gets past the
zero-length check (every `flush` included) leaves the completion started,
having called `start_op` once if it was not started before and not at all
if it was. -/
theorem in_flight_marking_idempotent (op : Op) (w : World)
    (hop : op.zero_length = false) :
    (start_in_flight_io w = if w.aio_comp.started then (.ok (), w) else start_op w) ∧
    ((start_in_flight_io >>= fun _ => start_in_flight_io) w = start_in_flight_io w) ∧
    ((issued w ((start_in_flight_io >>= fun _ => start_in_flight_io) w).2).filter
        Event.is_start_op).length ≤ 1 ∧
    (op.run w).2.aio_comp.started = true ∧
    (issued w (op.run w).2).filter Event.is_start_op =
      (if w.aio_comp.started then [] else [.start_op]) := by
  refine ⟨?_, ?_, ?_, ?_, ?_⟩
  · cases hs : w.aio_comp.started <;>
      simp [start_in_flight_io, bind_run, pure_run, started, hs]
  · cases hs : w.aio_comp.started <;>
      simp [start_in_flight_io, bind_run, pure_run, started, start_op, hs]
  · cases hs : w.aio_comp.started <;>
      simp [start_in_flight_io, bind_run, pure_run, started, start_op, hs, issued,
        Event.is_start_op]
  · obtain ⟨res, a, pre, post, hrun, -, hst, -, -, -, -⟩ := run_summary op w
    simp [hrun, hst, hop]
  · obtain ⟨res, a, pre, post, hrun, hpre, -, -, hpost, -, -⟩ := run_summary op w
    simp only [hop, Bool.false_eq_true, if_false] at hpre
    subst hpre
    have h1 := filter_start_op_post post hpost
    cases hs : w.aio_comp.started <;>
      simp [hrun, issued, start_events, hs, Event.is_start_op, h1]

theorem in_flight_marking_idempotent_witness :
    (Op.flush .FLUSH_SOURCE_USER).zero_length = false ∧
    (start_in_flight_io live_world =
      if live_world.aio_comp.started then (.ok (), live_world) else start_op live_world) ∧
    ((start_in_flight_io >>= fun _ => start_in_flight_io) live_world =
      start_in_flight_io live_world) ∧
    ((issued live_world
        ((start_in_flight_io >>= fun _ => start_in_flight_io) live_world).2).filter
        Event.is_start_op).length ≤ 1 ∧
    ((Op.flush .FLUSH_SOURCE_USER).run live_world).2.aio_comp.started = true ∧
    (issued live_world ((Op.flush .FLUSH_SOURCE_USER).run live_world).2).filter
        Event.is_start_op =
      (if live_world.aio_comp.started then [] else [.start_op]) :=
  ⟨rfl, in_flight_marking_idempotent (Op.flush .FLUSH_SOURCE_USER) live_world rfl⟩

/-! ## Publication of the request count -/

/-- C6: every dispatch call (`read`, `write`, `discard`, `write_same`,
`compare_and_write`, `flush`), in every state, calls `set_request_count`
exactly once, with the value the pending count has when the call is over,
and no cache call comes before it in the trace of the call. -/
theorem request_count_set_once_before_backend_calls (op : Op) (w : World) :
    ((issued w (op.run w).2).filter Event.is_set_request_count).length = 1 ∧
    ∃ pre post, issued w (op.run w).2 =
        pre ++ Event.set_request_count (op.run w).2.aio_comp.pending_count :: post ∧
      backend_calls pre = [] := by
  obtain ⟨res, a, pre, post, hrun, hpre, -, -, hpost, -, -⟩ := run_summary op w
  have h1 := filter_set_request_count_post post hpost
  have h2 : pre.filter Event.is_set_request_count = [] := by
    subst hpre
    cases op.zero_length <;> cases hs : w.aio_comp.started <;>
      simp [start_events, hs, Event.is_set_request_count]
  have h3 : backend_calls pre = [] := by
    subst hpre
    cases op.zero_length
    · simpa using start_events_no_backend w
    · simp [backend_calls]
  refine ⟨?_, pre, post, ?_, h3⟩
  · simp [hrun, issued, h1, h2, Event.is_set_request_count]
  · simp [hrun, issued]

/-! ## Dispatch after shutdown -/

/-- C8, as stated, fails: with `m_image_cache` null, a `read` of the single
extent `(0, 0)` returns `true` with `DISPATCH_RESULT_COMPLETE`. -/
theorem zero_length_read_after_shut_down_completes :
    shut_world.m_image_cache = none ∧
    (Op.read [(0, 0)] ⟨7, none⟩ 0).run shut_world =
      (.ok true, { shut_world with
        dispatch_result := some .DISPATCH_RESULT_COMPLETE,
        trace := [.set_request_count 0] }) :=
  ⟨rfl, rfl⟩

/-- C8, amended: with `m_image_cache` null, every dispatch call that gets past
the zero-length check (64-bit total extent length not 0, or any `flush`) stops
with a fault at the call through the null pointer, having made no cache
call, and does not return; a `read`, `write`, `discard`, `write_same` or
`compare_and_write` whose 64-bit total is 0 never reaches the pointer and returns
`true` with `DISPATCH_RESULT_COMPLETE`, again without a cache call. -/
theorem dispatch_after_shut_down (op : Op) (w : World) (hc : w.m_image_cache = none) :
    (op.zero_length = false →
      ∃ w1, op.run w = (.error .null_image_cache, w1) ∧
        backend_calls (issued w w1) = []) ∧
    (op.zero_length = true →
      ∃ w1, op.run w = (.ok true, w1) ∧
        w1.dispatch_result = some .DISPATCH_RESULT_COMPLETE ∧
        backend_calls (issued w w1) = []) := by
  obtain ⟨res, a, pre, post, hrun, hpre, -, hzl, -, hres, hnone⟩ := run_summary op w
  have hb := hnone hc
  have h3 : backend_calls pre = [] := by
    subst hpre
    cases op.zero_length
    · simpa using start_events_no_backend w
    · simp [backend_calls]
  have h4 : backend_calls (pre ++ Event.set_request_count a.pending_count :: post) = [] := by
    simp only [backend_calls] at h3 hb ⊢
    simp [List.filter_append, List.filter_cons, h3, hb, Event.is_backend_call]
  constructor
  · intro hz
    simp only [hz, hc, Bool.not_false, Option.isNone_none, Bool.and_self, if_true] at hres
    subst hres
    exact ⟨_, hrun, by simpa [issued] using h4⟩
  · intro hz
    simp only [hz, Bool.not_true, Bool.false_and, Bool.false_eq_true, if_false] at hres
    subst hres
    exact ⟨_, hrun, rfl, by simpa [issued] using h4⟩

theorem dispatch_after_shut_down_witness :
    shut_world.m_image_cache = none ∧
    ((Op.write [(0, 4096)] [1] 0).zero_length = false →
      ∃ w1, (Op.write [(0, 4096)] [1] 0).run shut_world = (.error .null_image_cache, w1) ∧
        backend_calls (issued shut_world w1) = []) ∧
    ((Op.write [(0, 4096)] [1] 0).zero_length = true →
      ∃ w1, (Op.write [(0, 4096)] [1] 0).run shut_world = (.ok true, w1) ∧
        w1.dispatch_result = some .DISPATCH_RESULT_COMPLETE ∧
        backend_calls (issued shut_world w1) = []) :=
  ⟨rfl, dispatch_after_shut_down (Op.write [(0, 4096)] [1] 0) shut_world rfl⟩

/-! ## The unsupported verb -/

/-- C9: `list_snaps` aborts on every input and in every state: the run ends
with the abort fault instead of a return value, and the world (dispatch
result, completion, trace of calls) is exactly what it was. -/
theorem list_snaps_aborts (image_extents : Extents) (snap_ids : List Nat)
    (list_snaps_flags : Int) (w : World) :
    list_snaps image_extents snap_ids list_snaps_flags w = (.error .aborted, w) := rfl

/-! ## Fan-out -/

theorem backend_calls_discard_map (g : Nat) (image_extents : Extents) :
    backend_calls (image_extents.map (fun e => Event.aio_discard e.1 e.2 g)) =
      image_extents.map (fun e => Event.aio_discard e.1 e.2 g) := by
  rw [backend_calls, List.filter_eq_self]
  intro e he
  obtain ⟨x, _, rfl⟩ := List.mem_map.mp he
  rfl

theorem backend_calls_writesame_calls (takes_bl : Bool) (op_flags : Int)
    (image_extents : Extents) (bl : Bufferlist) :
    backend_calls (writesame_calls takes_bl op_flags image_extents bl) =
      writesame_calls takes_bl op_flags image_extents bl := by
  rw [backend_calls, List.filter_eq_self]
  intro e he
  obtain ⟨o, l, b, rfl⟩ := writesame_calls_shape _ _ _ _ e he
  rfl

theorem backend_calls_fan_out (w : World) (n : Nat) (calls : List Event)
    (h : backend_calls calls = calls) :
    backend_calls (start_events w ++ [Event.set_request_count n] ++ calls) = calls := by
  have h1 := start_events_no_backend w
  simp only [backend_calls] at h h1 ⊢
  simp [List.filter_append, h, h1, Event.is_backend_call]

theorem writesame_calls_length (takes_bl : Bool) (op_flags : Int) :
    ∀ (image_extents : Extents) (bl : Bufferlist),
      (writesame_calls takes_bl op_flags image_extents bl).length = image_extents.length
  | [], _ => rfl
  | _ :: rest, bl => by
      simp [writesame_calls, writesame_calls_length takes_bl op_flags rest]

theorem writesame_calls_extent (takes_bl : Bool) (op_flags : Int) :
    ∀ (image_extents : Extents) (bl : Bufferlist),
      (writesame_calls takes_bl op_flags image_extents bl).map Event.extent =
        image_extents.map some
  | [], _ => rfl
  | _ :: rest, bl => by
      simp [writesame_calls, Event.extent, writesame_calls_extent takes_bl op_flags rest]

theorem writesame_calls_getElem? (takes_bl : Bool) (op_flags : Int) :
    ∀ (image_extents : Extents) (bl : Bufferlist) (i : Nat) (x : Extent),
      image_extents[i]? = some x →
        ∃ bl1, (writesame_calls takes_bl op_flags image_extents bl)[i]? =
          some (Event.aio_writesame x.1 x.2 bl1 op_flags)
  | [], _, _, _, h => by simp at h
  | e :: rest, bl, 0, x, h => by
      simp only [List.getElem?_cons_zero, Option.some.injEq] at h
      subst h
      exact ⟨bl, by simp [writesame_calls]⟩
  | e :: rest, bl, i + 1, x, h => by
      simp only [List.getElem?_cons_succ] at h
      obtain ⟨b, hb⟩ := writesame_calls_getElem? takes_bl op_flags rest
        (if takes_bl then [] else bl) i x h
      exact ⟨b, by simpa [writesame_calls] using hb⟩

/-- What the calls of the loop are handed when the cache only reads the
pattern: the caller's buffer, every time. -/
theorem writesame_calls_pattern_kept (op_flags : Int) :
    ∀ (image_extents : Extents) (bl : Bufferlist),
      (writesame_calls false op_flags image_extents bl).map Event.pattern =
        List.replicate image_extents.length (some bl)
  | [], _ => rfl
  | _ :: rest, bl => by
      simp [writesame_calls, Event.pattern, writesame_calls_pattern_kept op_flags rest,
        List.replicate_succ]

theorem writesame_calls_pattern_empty (op_flags : Int) :
    ∀ (image_extents : Extents),
      (writesame_calls true op_flags image_extents []).map Event.pattern =
        List.replicate image_extents.length (some [])
  | [] => rfl
  | _ :: rest => by
      simp [writesame_calls, Event.pattern, writesame_calls_pattern_empty op_flags rest,
        List.replicate_succ]

/-- What the calls of the loop are handed when the cache takes the pattern
over: the caller's buffer the first time, an empty buffer from then on. -/
theorem writesame_calls_pattern_taken (op_flags : Int) (e : Extent) (rest : Extents)
    (bl : Bufferlist) :
    (writesame_calls true op_flags (e :: rest) bl).map Event.pattern =
      some bl :: List.replicate rest.length (some []) := by
  simp [writesame_calls, Event.pattern, writesame_calls_pattern_empty]

theorem filter_length_lt {α : Type} (p : α → Bool) :
    ∀ (l : List α) (i : Nat) (x : α), l[i]? = some x → p x = false →
      (l.filter p).length < l.length
  | [], _, _, h, _ => by simp at h
  | a :: rest, 0, x, h, hp => by
      simp only [List.getElem?_cons_zero, Option.some.injEq] at h
      subst h
      have := List.length_filter_le p rest
      simp only [List.filter_cons, hp, Bool.false_eq_true, if_false, List.length_cons]
      omega
  | a :: rest, i + 1, x, h, hp => by
      simp only [List.getElem?_cons_succ] at h
      have ih := filter_length_lt p rest i x h hp
      simp only [List.filter_cons, List.length_cons]
      split
      · simp only [List.length_cons]; omega
      · omega

/-- C2, as stated, fails: the lengths of `wrapping_extents` are `uint64_t`
values that add up to `2 ^ 64`, not 0, yet `discard` and `write_same` over
these two extents set the pending count to 0 and make no cache call,
because the total that `preprocess_length` tests is a 64-bit value. -/
theorem fan_out_skipped_when_total_wraps :
    extents_in_range wrapping_extents = true ∧
    (wrapping_extents.map Prod.snd).sum ≠ 0 ∧
    (∃ w1, discard wrapping_extents 4096 live_world = (.ok true, w1) ∧
      w1.aio_comp.pending_count = 0 ∧ backend_calls (issued live_world w1) = []) ∧
    (∃ w1, write_same wrapping_extents [170] 0 live_world = (.ok true, w1) ∧
      w1.aio_comp.pending_count = 0 ∧ backend_calls (issued live_world w1) = []) :=
  ⟨by decide, by decide,
    ⟨_, discard_zero _ _ _ (by decide), rfl,
      by simp [issued, backend_calls, Event.is_backend_call]⟩,
    ⟨_, write_same_zero _ _ _ _ (by decide), rfl,
      by simp [issued, backend_calls, Event.is_backend_call]⟩⟩

/-- C2, amended: on a dispatcher with a live cache, a `discard` or
`write_same` over `k` extents whose 64-bit total length (the sum of the
lengths modulo `2 ^ 64`) is not 0 sets the pending count to `k` and makes
exactly `k` cache calls, the `i`-th for the offset and length of the `i`-th
extent; every `aio_discard` carries the call's one discard granularity, and
every call of `write_same` is an `aio_writesame` with the call's flags. -/
theorem per_extent_fan_out (w : World) (c : ImageCache) (image_extents : Extents)
    (hc : w.m_image_cache = some c) (hnz : extents_length image_extents ≠ 0) :
    (∀ discard_granularity_bytes, ∃ w1,
      discard image_extents discard_granularity_bytes w = (.ok true, w1) ∧
      w1.aio_comp.pending_count = image_extents.length ∧
      (backend_calls (issued w w1)).length = image_extents.length ∧
      backend_calls (issued w w1) =
        image_extents.map (fun e => Event.aio_discard e.1 e.2 discard_granularity_bytes)) ∧
    (∀ bl op_flags, ∃ w1,
      write_same image_extents bl op_flags w = (.ok true, w1) ∧
      w1.aio_comp.pending_count = image_extents.length ∧
      (backend_calls (issued w w1)).length = image_extents.length ∧
      (backend_calls (issued w w1)).map Event.extent = image_extents.map some ∧
      ∀ e ∈ backend_calls (issued w w1),
        ∃ offset length bl1, e = Event.aio_writesame offset length bl1 op_flags) := by
  constructor
  · intro g
    refine ⟨_, discard_run image_extents g w c hnz hc, rfl, ?_, ?_⟩ <;>
      simp only [issued, List.drop_left, backend_calls_fan_out, backend_calls_discard_map,
        List.length_map]
  · intro bl op_flags
    refine ⟨_, write_same_run image_extents bl op_flags w c hnz hc, rfl, ?_, ?_, ?_⟩
    · simp only [issued, List.drop_left, backend_calls_fan_out, backend_calls_writesame_calls,
        writesame_calls_length]
    · simp only [issued, List.drop_left, backend_calls_fan_out, backend_calls_writesame_calls,
        writesame_calls_extent]
    · simp only [issued, List.drop_left, backend_calls_fan_out, backend_calls_writesame_calls]
      exact writesame_calls_shape _ _ _ _

theorem per_extent_fan_out_witness :
    live_world.m_image_cache = some { takes_bl := true } ∧
    extents_length [(0, 512), (4096, 1024)] ≠ 0 ∧
    (∀ discard_granularity_bytes, ∃ w1,
      discard [(0, 512), (4096, 1024)] discard_granularity_bytes live_world = (.ok true, w1) ∧
      w1.aio_comp.pending_count = [((0 : Nat), (512 : Nat)), (4096, 1024)].length ∧
      (backend_calls (issued live_world w1)).length =
        [((0 : Nat), (512 : Nat)), (4096, 1024)].length ∧
      backend_calls (issued live_world w1) =
        [((0 : Nat), (512 : Nat)), (4096, 1024)].map
          (fun e => Event.aio_discard e.1 e.2 discard_granularity_bytes)) ∧
    (∀ bl op_flags, ∃ w1,
      write_same [(0, 512), (4096, 1024)] bl op_flags live_world = (.ok true, w1) ∧
      w1.aio_comp.pending_count = [((0 : Nat), (512 : Nat)), (4096, 1024)].length ∧
      (backend_calls (issued live_world w1)).length =
        [((0 : Nat), (512 : Nat)), (4096, 1024)].length ∧
      (backend_calls (issued live_world w1)).map Event.extent =
        [((0 : Nat), (512 : Nat)), (4096, 1024)].map some ∧
      ∀ e ∈ backend_calls (issued live_world w1),
        ∃ offset length bl1, e = Event.aio_writesame offset length bl1 op_flags) :=
  ⟨rfl, by decide, per_extent_fan_out live_world _ [(0, 512), (4096, 1024)] rfl (by decide)⟩

/-- C3, evaluated: on a cache that takes over the buffer it is handed, a
`write_same` of the pattern `[170, 85]` over three extents hands the pattern
to the first `aio_writesame` only; the second and third are handed the
emptied buffer that the first `std::move(bl)` left behind. -/
theorem write_same_pattern_moved_away :
    live_world.m_image_cache = some { takes_bl := true } ∧
    (backend_calls (issued live_world
      (write_same [(0, 512), (512, 512), (1024, 512)] [170, 85] 0 live_world).2)).map
        Event.pattern = [some [170, 85], some [], some []] :=
  ⟨rfl, rfl⟩

/-- C4, as stated, fails: the lengths of `wrapping_extents` add up to
`2 ^ 64`, not 0, yet a `write` and a `read` of these extents set the pending
count to 0 and make no cache call, because the total that
`preprocess_length` tests is a 64-bit value. -/
theorem single_call_skipped_when_total_wraps :
    extents_in_range wrapping_extents = true ∧
    (wrapping_extents.map Prod.snd).sum ≠ 0 ∧
    (∃ w1, write wrapping_extents [1, 2] 0 live_world = (.ok true, w1) ∧
      w1.aio_comp.pending_count = 0 ∧ backend_calls (issued live_world w1) = []) ∧
    (∃ w1, read wrapping_extents ⟨7, none⟩ 0 live_world = (.ok true, w1) ∧
      w1.aio_comp.pending_count = 0 ∧ backend_calls (issued live_world w1) = []) :=
  ⟨by decide, by decide,
    ⟨_, write_zero _ _ _ _ (by decide), rfl,
      by simp [issued, backend_calls, Event.is_backend_call]⟩,
    ⟨_, read_zero _ _ _ _ (by decide), rfl,
      by simp [issued, backend_calls, Event.is_backend_call]⟩⟩

/-- C4, amended: on a dispatcher with a live cache, a `read`, `write` or
`compare_and_write` whose 64-bit total extent length (the sum of the lengths
modulo `2 ^ 64`) is not 0, and every `flush`,
returns `true` with `DISPATCH_RESULT_COMPLETE`, sets the pending count to 1
and makes exactly one cache call, of its own kind and with its own
arguments (`read` also installs the caller's read result, clipped to the
64-bit total length). -/
theorem single_fan_out (w : World) (c : ImageCache) (hc : w.m_image_cache = some c) :
    (∀ image_extents read_result op_flags, extents_length image_extents ≠ 0 → ∃ w1,
      read image_extents read_result op_flags w = (.ok true, w1) ∧
      w1.dispatch_result = some .DISPATCH_RESULT_COMPLETE ∧
      w1.aio_comp.pending_count = 1 ∧
      backend_calls (issued w w1) = [.aio_read image_extents op_flags] ∧
      w1.aio_comp.read_result =
        some { read_result with clip_length := some (extents_length image_extents) }) ∧
    (∀ image_extents bl op_flags, extents_length image_extents ≠ 0 → ∃ w1,
      write image_extents bl op_flags w = (.ok true, w1) ∧
      w1.dispatch_result = some .DISPATCH_RESULT_COMPLETE ∧
      w1.aio_comp.pending_count = 1 ∧
      backend_calls (issued w w1) = [.aio_write image_extents bl op_flags]) ∧
    (∀ image_extents cmp_bl bl mismatch_offset op_flags,
      extents_length image_extents ≠ 0 → ∃ w1,
      compare_and_write image_extents cmp_bl bl mismatch_offset op_flags w = (.ok true, w1) ∧
      w1.dispatch_result = some .DISPATCH_RESULT_COMPLETE ∧
      w1.aio_comp.pending_count = 1 ∧
      backend_calls (issued w w1) =
        [.aio_compare_and_write image_extents cmp_bl bl mismatch_offset op_flags]) ∧
    (∀ flush_source, ∃ w1,
      flush flush_source w = (.ok true, w1) ∧
      w1.dispatch_result = some .DISPATCH_RESULT_COMPLETE ∧
      w1.aio_comp.pending_count = 1 ∧
      backend_calls (issued w w1) = [.aio_flush flush_source]) := by
  have hs := start_events_no_backend w
  simp only [backend_calls] at hs
  refine ⟨?_, ?_, ?_, ?_⟩
  · intro image_extents read_result op_flags hnz
    refine ⟨_, read_run image_extents read_result op_flags w c hnz hc, rfl, rfl, ?_, rfl⟩
    simp [issued, backend_calls, List.filter_append, hs, Event.is_backend_call]
  · intro image_extents bl op_flags hnz
    refine ⟨_, write_run image_extents bl op_flags w c hnz hc, rfl, rfl, ?_⟩
    simp [issued, backend_calls, List.filter_append, hs, Event.is_backend_call]
  · intro image_extents cmp_bl bl mismatch_offset op_flags hnz
    refine ⟨_, compare_and_write_run image_extents cmp_bl bl mismatch_offset op_flags w c
      hnz hc, rfl, rfl, ?_⟩
    simp [issued, backend_calls, List.filter_append, hs, Event.is_backend_call]
  · intro flush_source
    refine ⟨_, flush_run flush_source w c hc, rfl, rfl, ?_⟩
    simp [issued, backend_calls, List.filter_append, hs, Event.is_backend_call]

theorem single_fan_out_witness :
    live_world.m_image_cache = some { takes_bl := true } ∧
    (∀ image_extents read_result op_flags, extents_length image_extents ≠ 0 → ∃ w1,
      read image_extents read_result op_flags live_world = (.ok true, w1) ∧
      w1.dispatch_result = some .DISPATCH_RESULT_COMPLETE ∧
      w1.aio_comp.pending_count = 1 ∧
      backend_calls (issued live_world w1) = [.aio_read image_extents op_flags] ∧
      w1.aio_comp.read_result =
        some { read_result with clip_length := some (extents_length image_extents) }) ∧
    (∀ image_extents bl op_flags, extents_length image_extents ≠ 0 → ∃ w1,
      write image_extents bl op_flags live_world = (.ok true, w1) ∧
      w1.dispatch_result = some .DISPATCH_RESULT_COMPLETE ∧
      w1.aio_comp.pending_count = 1 ∧
      backend_calls (issued live_world w1) = [.aio_write image_extents bl op_flags]) ∧
    (∀ image_extents cmp_bl bl mismatch_offset op_flags,
      extents_length image_extents ≠ 0 → ∃ w1,
      compare_and_write image_extents cmp_bl bl mismatch_offset op_flags live_world =
        (.ok true, w1) ∧
      w1.dispatch_result = some .DISPATCH_RESULT_COMPLETE ∧
      w1.aio_comp.pending_count = 1 ∧
      backend_calls (issued live_world w1) =
        [.aio_compare_and_write image_extents cmp_bl bl mismatch_offset op_flags]) ∧
    (∀ flush_source, ∃ w1,
      flush flush_source live_world = (.ok true, w1) ∧
      w1.dispatch_result = some .DISPATCH_RESULT_COMPLETE ∧
      w1.aio_comp.pending_count = 1 ∧
      backend_calls (issued live_world w1) = [.aio_flush flush_source]) :=
  ⟨rfl, single_fan_out live_world _ rfl⟩

/-- C10, as stated, fails: the extents `(0, 0)`, `(0, 2 ^ 63)`,
`(4096, 2 ^ 63)` hold a 0-length extent and their lengths add up to `2 ^ 64`,
not 0, yet `discard` and `write_same` make no cache call at all, neither for
the 0-length extent nor for the others, and set the pending count to 0
rather than 3. -/
theorem zero_length_extent_skipped_when_total_wraps :
    extents_in_range ((0, 0) :: wrapping_extents) = true ∧
    (((0, 0) :: wrapping_extents).map Prod.snd).sum ≠ 0 ∧
    ((0, 0) :: wrapping_extents).length = 3 ∧
    (∃ w1, discard ((0, 0) :: wrapping_extents) 4096 live_world = (.ok true, w1) ∧
      w1.aio_comp.pending_count = 0 ∧ backend_calls (issued live_world w1) = []) ∧
    (∃ w1, write_same ((0, 0) :: wrapping_extents) [170] 0 live_world = (.ok true, w1) ∧
      w1.aio_comp.pending_count = 0 ∧ backend_calls (issued live_world w1) = []) :=
  ⟨by decide, by decide, rfl,
    ⟨_, discard_zero _ _ _ (by decide), rfl,
      by simp [issued, backend_calls, Event.is_backend_call]⟩,
    ⟨_, write_same_zero _ _ _ _ (by decide), rfl,
      by simp [issued, backend_calls, Event.is_backend_call]⟩⟩

/-- C10, amended: on a dispatcher with a live cache, when a `discard` or
`write_same` has a 64-bit total length (the sum of the lengths modulo
`2 ^ 64`) that is not 0 and its `i`-th extent is `(offset, 0)`, the `i`-th
cache call is still made, for `offset` and length 0, and the pending count
is the number of all extents, which is more than the number of non-empty
ones. -/
theorem zero_length_extents_not_filtered (w : World) (c : ImageCache)
    (image_extents : Extents) (i offset : Nat)
    (hc : w.m_image_cache = some c) (hnz : extents_length image_extents ≠ 0)
    (hi : image_extents[i]? = some (offset, 0)) :
    (∀ discard_granularity_bytes, ∃ w1,
      discard image_extents discard_granularity_bytes w = (.ok true, w1) ∧
      w1.aio_comp.pending_count = image_extents.length ∧
      (image_extents.filter (fun e => e.2 != 0)).length < w1.aio_comp.pending_count ∧
      (backend_calls (issued w w1))[i]? =
        some (Event.aio_discard offset 0 discard_granularity_bytes)) ∧
    (∀ bl op_flags, ∃ w1,
      write_same image_extents bl op_flags w = (.ok true, w1) ∧
      w1.aio_comp.pending_count = image_extents.length ∧
      (image_extents.filter (fun e => e.2 != 0)).length < w1.aio_comp.pending_count ∧
      ∃ bl1, (backend_calls (issued w w1))[i]? =
        some (Event.aio_writesame offset 0 bl1 op_flags)) := by
  have hlt := filter_length_lt (fun e : Extent => e.2 != 0) image_extents i (offset, 0) hi
    (by simp)
  constructor
  · intro g
    refine ⟨_, discard_run image_extents g w c hnz hc, rfl, hlt, ?_⟩
    simp only [issued, List.drop_left, backend_calls_fan_out, backend_calls_discard_map]
    simp [hi]
  · intro bl op_flags
    refine ⟨_, write_same_run image_extents bl op_flags w c hnz hc, rfl, hlt, ?_⟩
    simp only [issued, List.drop_left, backend_calls_fan_out, backend_calls_writesame_calls]
    exact writesame_calls_getElem? _ _ _ _ _ _ hi

theorem zero_length_extents_not_filtered_witness :
    live_world.m_image_cache = some { takes_bl := true } ∧
    extents_length [(0, 0), (0, 4096)] ≠ 0 ∧
    [((0 : Nat), (0 : Nat)), (0, 4096)][0]? = some (0, 0) ∧
    (∀ discard_granularity_bytes, ∃ w1,
      discard [(0, 0), (0, 4096)] discard_granularity_bytes live_world = (.ok true, w1) ∧
      w1.aio_comp.pending_count = [((0 : Nat), (0 : Nat)), (0, 4096)].length ∧
      ([((0 : Nat), (0 : Nat)), (0, 4096)].filter (fun e => e.2 != 0)).length <
        w1.aio_comp.pending_count ∧
      (backend_calls (issued live_world w1))[0]? =
        some (Event.aio_discard 0 0 discard_granularity_bytes)) ∧
    (∀ bl op_flags, ∃ w1,
      write_same [(0, 0), (0, 4096)] bl op_flags live_world = (.ok true, w1) ∧
      w1.aio_comp.pending_count = [((0 : Nat), (0 : Nat)), (0, 4096)].length ∧
      ([((0 : Nat), (0 : Nat)), (0, 4096)].filter (fun e => e.2 != 0)).length <
        w1.aio_comp.pending_count ∧
      ∃ bl1, (backend_calls (issued live_world w1))[0]? =
        some (Event.aio_writesame 0 0 bl1 op_flags)) :=
  ⟨rfl, by decide, rfl,
    zero_length_extents_not_filtered live_world _ [(0, 0), (0, 4096)] 0 0 rfl (by decide) rfl⟩

/-! ## Shutdown -/

theorem run_frame (op : Op) (w : World) :
    ∃ t, (op.run w).2.trace = w.trace ++ t ∧
      t.filter Event.is_context_complete = [] ∧
      (op.run w).2.m_image_cache = w.m_image_cache ∧
      (op.run w).2.shutdown_requests = w.shutdown_requests := by
  obtain ⟨res, a, pre, post, hrun, hpre, -, -, hpost, -, -⟩ := run_summary op w
  have h1 := filter_context_complete_post post hpost
  have h2 : pre.filter Event.is_context_complete = [] := by
    subst hpre
    cases op.zero_length <;> cases hs : w.aio_comp.started <;>
      simp [start_events, hs, Event.is_context_complete]
  refine ⟨_, by rw [hrun], ?_, by rw [hrun], by rw [hrun]⟩
  simp [List.filter_append, h1, h2, Event.is_context_complete]

theorem run_ops_frame : ∀ (ops : List Op) (w : World),
    ∃ t, (run_ops ops w).trace = w.trace ++ t ∧
      t.filter Event.is_context_complete = [] ∧
      (run_ops ops w).m_image_cache = w.m_image_cache ∧
      (run_ops ops w).shutdown_requests = w.shutdown_requests
  | [], w => ⟨[], by simp [run_ops], rfl, rfl, rfl⟩
  | op :: rest, w => by
      obtain ⟨t1, ht1, hf1, hm1, hs1⟩ := run_frame op w
      rcases hrun : op.run w with ⟨res, w1⟩
      rw [hrun] at ht1 hm1 hs1
      cases res with
      | error e => exact ⟨t1, by simpa [run_ops, hrun] using ht1, hf1,
          by simpa [run_ops, hrun] using hm1, by simpa [run_ops, hrun] using hs1⟩
      | ok b =>
        obtain ⟨t2, ht2, hf2, hm2, hs2⟩ := run_ops_frame rest w1
        simp only at ht1 hm1 hs1
        refine ⟨t1 ++ t2, ?_, ?_, ?_, ?_⟩
        · simp [run_ops, hrun, ht2, ht1]
        · simp [List.filter_append, hf1, hf2]
        · simp [run_ops, hrun, hm2, hm1]
        · simp [run_ops, hrun, hs2, hs1]

/-- C7: `shut_down(on_finish)` on a dispatcher whose `m_image_cache` is set
sends a shutdown request for that cache and returns; from then on, whatever
dispatch calls are made in between, `m_image_cache` stays set and
`on_finish` is not completed, until the completion of that request fires;
when it fires with result `r`, `m_image_cache` is cleared first and then
`on_finish` is completed, once, with `r`. -/
theorem shut_down_ordering (w : World) (c : ImageCache) (id : Nat) (r : Int)
    (ops : List Op) (hc : w.m_image_cache = some c) :
    ∃ w1 req, shut_down (.user id) w = (.ok (), w1) ∧
      req = { image_cache := some c, on_finish := .shut_down_lambda (.user id) } ∧
      w1.shutdown_requests = w.shutdown_requests ++ [req] ∧
      issued w w1 = [.shutdown_request_send req] ∧
      (run_ops ops w1).m_image_cache = some c ∧
      (issued w (run_ops ops w1)).filter Event.is_context_complete = [] ∧
      (req.finish r (run_ops ops w1)).m_image_cache = none ∧
      issued (run_ops ops w1) (req.finish r (run_ops ops w1)) =
        [.image_cache_cleared, .context_complete id r] := by
  obtain ⟨t, ht, hf, hm, hs⟩ := run_ops_frame ops
    { w with
      shutdown_requests := w.shutdown_requests ++
        [{ image_cache := some c, on_finish := .shut_down_lambda (.user id) }],
      trace := w.trace ++
        [.shutdown_request_send { image_cache := some c, on_finish := .shut_down_lambda (.user id) }] }
  simp only at ht hm hs
  refine ⟨{ w with
      shutdown_requests := w.shutdown_requests ++
        [{ image_cache := some c, on_finish := .shut_down_lambda (.user id) }],
      trace := w.trace ++
        [.shutdown_request_send
          { image_cache := some c, on_finish := .shut_down_lambda (.user id) }] },
    { image_cache := some c, on_finish := .shut_down_lambda (.user id) },
    ?_, rfl, ?_, ?_, ?_, ?_, ?_, ?_⟩
  · simp [shut_down, bind_run, get_m_image_cache, ceph_assert, hc, ShutdownRequest.send,
      ShutdownRequest.create]
  · rfl
  · simp [issued]
  · rw [hm]; exact hc
  · simp only [issued, ht]
    simp [List.filter_append, hf, Event.is_context_complete]
  · simp [ShutdownRequest.finish, hs, Context.complete]
  · simp [ShutdownRequest.finish, hs, Context.complete, issued]

theorem shut_down_ordering_witness :
    live_world.m_image_cache = some { takes_bl := true } ∧
    ∃ w1 req, shut_down (.user 3) live_world = (.ok (), w1) ∧
      req = { image_cache := some { takes_bl := true },
              on_finish := .shut_down_lambda (.user 3) } ∧
      w1.shutdown_requests = live_world.shutdown_requests ++ [req] ∧
      issued live_world w1 = [.shutdown_request_send req] ∧
      (run_ops [Op.write [(0, 4096)] [1] 0] w1).m_image_cache = some { takes_bl := true } ∧
      (issued live_world (run_ops [Op.write [(0, 4096)] [1] 0] w1)).filter
        Event.is_context_complete = [] ∧
      (req.finish (-108) (run_ops [Op.write [(0, 4096)] [1] 0] w1)).m_image_cache = none ∧
      issued (run_ops [Op.write [(0, 4096)] [1] 0] w1)
          (req.finish (-108) (run_ops [Op.write [(0, 4096)] [1] 0] w1)) =
        [.image_cache_cleared, .context_complete 3 (-108)] :=
  ⟨rfl, shut_down_ordering live_world _ 3 (-108) [Op.write [(0, 4096)] [1] 0] rfl⟩

end ImageDispatch
